import Mathlib

/-!
# SmartCleaners admin dashboard: verification of the specification

A shallow embedding, in Lean 4, of the decision logic of the SmartCleaners
admin dashboard (stock classification, dashboard metrics, order tracking
assignment, bulk deletion, combo pricing, listing sort order, category
serial-number coercion, inventory stock editing), together with theorems
settling the specification claims about that logic.

Numbers that are JavaScript floating-point numbers in the source are
modelled as rationals; integer-valued fields are modelled as integers.
Optional / possibly-missing document fields are modelled with `Option`.
-/

namespace SmartCleaners

/-! ## Stock classification (Categories.tsx, Inventory view)

`getStockStatus` embeds the classifier at Categories.tsx lines 609-613:
stock 0 is out of stock, stock at most 10 is low stock, anything else is
in stock.  `lowStockCount` and `outOfStockCount` embed the Inventory
statistics at lines 566-567.  `dashboardLowStockCount` embeds the distinct
dashboard counter at Orders.tsx lines 767-769, which counts products with
`(product.stock || 0) < 10`. -/

inductive StockLabel where
  | outOfStock
  | lowStock
  | inStock
deriving DecidableEq

def getStockStatus (stock : Int) : StockLabel :=
  if stock = 0 then .outOfStock
  else if stock ≤ 10 then .lowStock
  else .inStock

/-- An inventory-view product row (Categories.tsx Inventory section): the
fields read by `calculateStats`, `handleSaveStock` and the table renderer. -/
structure InvProduct where
  id : String
  name : String
  sku : String
  categoryName : String
  price : ℚ
  salePrice : Option ℚ
  stock : Int
deriving DecidableEq

def lowStockCount (products : List InvProduct) : Nat :=
  (products.filter (fun p => decide (p.stock > 0) && decide (p.stock ≤ 10))).length

def outOfStockCount (products : List InvProduct) : Nat :=
  (products.filter (fun p => decide (p.stock = 0))).length

/-- A dashboard product record: only `stock` is read, and it may be absent
(the source reads `product.stock || 0`). -/
structure DashProduct where
  stock : Option Int
deriving DecidableEq

def dashboardLowStockCount (products : List DashProduct) : Nat :=
  (products.filter (fun p => decide (p.stock.getD 0 < 10))).length

/-! ## Revenue growth (Analytics.tsx lines 142-143) -/

def revenueGrowth (previousRevenue totalRevenue : ℚ) : ℚ :=
  if previousRevenue > 0 then ((totalRevenue - previousRevenue) / previousRevenue) * 100 else 0

/-! ## Category serial-number coercion (Categories.tsx handleSubmit)

The create path (lines 121-128) and the update path (lines 130-141) both
persist `serialNo` through the same ternary:
`serialNo !== null && serialNo !== 0 ? Number(serialNo) : null`. -/

structure CategoryForm where
  name : String
  description : String
  imageUrl : String
  isActive : Bool
  serialNo : Option Int
deriving DecidableEq

/-- Serial number as persisted by the create path (`categoryData`). -/
def categoryDataSerialNo (f : CategoryForm) : Option Int :=
  if f.serialNo ≠ none ∧ f.serialNo ≠ some 0 then f.serialNo else none

/-- Serial number as persisted by the update path (`updateDoc`). -/
def categoryUpdateSerialNo (f : CategoryForm) : Option Int :=
  if f.serialNo ≠ none ∧ f.serialNo ≠ some 0 then f.serialNo else none

/-! ## Dashboard profit metrics (Orders.tsx Dashboard, fetchDashboardStats)

An order document carries an optional `pricing` object; the dashboard reads
`order.pricing?.subtotal || 0` and `order.pricing?.finalTotal || 0`.
`totalProfit` embeds lines 989-992 (cost assumed to be `subtotal * 0.8`);
`monthProfit` embeds the per-bucket reducer of the monthly series at lines
1065-1068 (cost assumed to be `subtotal * 0.6`), applied to the orders of
one month bucket. -/

structure Pricing where
  subtotal : ℚ
  finalTotal : ℚ
deriving DecidableEq

structure DashOrder where
  pricing : Option Pricing
deriving DecidableEq

def subtotalD (o : DashOrder) : ℚ :=
  (o.pricing.map Pricing.subtotal).getD 0

def finalTotalD (o : DashOrder) : ℚ :=
  (o.pricing.map Pricing.finalTotal).getD 0

def totalProfit (orders : List DashOrder) : ℚ :=
  orders.foldl (fun sum o => sum + (finalTotalD o - subtotalD o * (0.8 : ℚ))) 0

def monthProfit (monthOrders : List DashOrder) : ℚ :=
  monthOrders.foldl (fun sum o => sum + (finalTotalD o - subtotalD o * (0.6 : ℚ))) 0

/-! ## Combo form submission (ComboOrders view)

`calculateOriginalPrice` and `calculateSavings` embed lines 181-188 of the
ComboOrders source; `handleSubmitCombo` embeds the submission handler at
lines 190-251: fewer than two constituent products aborts with an error
before any write, otherwise the combo document is written with
`originalPrice` and `savings` recomputed from the current form state. -/

structure ComboProduct where
  productId : String
  productName : String
  quantity : ℚ
  price : ℚ
deriving DecidableEq

structure ComboForm where
  name : String
  description : String
  imageUrl : String
  products : List ComboProduct
  comboPrice : ℚ
  isActive : Bool
  isFeatured : Bool
deriving DecidableEq

structure ComboDoc where
  name : String
  description : String
  imageUrl : String
  products : List ComboProduct
  comboPrice : ℚ
  originalPrice : ℚ
  savings : ℚ
  isActive : Bool
  isFeatured : Bool
deriving DecidableEq

def calculateOriginalPrice (f : ComboForm) : ℚ :=
  f.products.foldl (fun total p => total + p.price * p.quantity) 0

def calculateSavings (f : ComboForm) : ℚ :=
  calculateOriginalPrice f - f.comboPrice

/-- The submission handler: `none` models the client-side rejection (no
remote write is issued), `some d` models the combo document written to the
store (create path) or merged into it (update path; both paths persist the
same pricing fields). -/
def handleSubmitCombo (f : ComboForm) : Option ComboDoc :=
  if f.products.length < 2 then none
  else some
    { name := f.name
      description := f.description
      imageUrl := f.imageUrl
      products := f.products
      comboPrice := f.comboPrice
      originalPrice := calculateOriginalPrice f
      savings := calculateSavings f
      isActive := f.isActive
      isFeatured := f.isFeatured }

/-! ## Order tracking assignment (Orders.tsx lines 148-175)

The handler rejects when the entered string trims to empty (a toast error,
no write), otherwise issues a single document update setting
`trackingNumber` to the entered string, `status` to shipped, and
`updatedAt` to the current time.  JavaScript `trim` strips leading and
trailing whitespace. -/

inductive OrderStatus where
  | pending
  | confirmed
  | processing
  | shipped
  | delivered
  | cancelled
deriving DecidableEq

structure OrderRec where
  id : String
  status : OrderStatus
  trackingNumber : Option (List Char)
  updatedAtMillis : Option Int
deriving DecidableEq

def isJsWhitespace (c : Char) : Bool :=
  c = ' ' || c = '\t' || c = '\n' || c = '\r' || c = '\x0b' || c = '\x0c'

def jsTrim (s : List Char) : List Char :=
  ((s.dropWhile isJsWhitespace).reverse.dropWhile isJsWhitespace).reverse

/-- `none` models the rejection path (toast error, no write); `some o2`
models the updated order document after the write. -/
def updateTrackingNumber (input : List Char) (nowMillis : Int) (o : OrderRec) :
    Option OrderRec :=
  if jsTrim input = [] then none
  else some { o with
    trackingNumber := some input
    status := .shipped
    updatedAtMillis := some nowMillis }

/-! ## Bulk order deletion (Orders.tsx lines 237-259)

`deleteSelectedOrders` returns early when nothing is selected; otherwise it
queues one delete per selected id into a single write batch and commits it.
The store is modelled as an association list from document id to order. -/

/-- Modelled from the spec: the remote document store is external to this
repository; its multi-document batch write is atomic, so a commit either
applies every queued deletion or fails leaving the store unchanged (the
`ok` flag chooses which outcome the environment produced). -/
def commitDeleteBatch (ok : Bool) (ids : List String) (store : List (String × OrderRec)) :
    List (String × OrderRec) :=
  if ok then store.filter (fun e => decide (e.1 ∉ ids)) else store

def deleteSelectedOrders (ok : Bool) (selectedOrderIds : List String)
    (store : List (String × OrderRec)) : List (String × OrderRec) :=
  if selectedOrderIds.length = 0 then store
  else commitDeleteBatch ok selectedOrderIds store

/-! ## Inventory stock save (Categories.tsx lines 583-602)

On a successful write the local product list is mapped in place, replacing
only the edited product's `stock`; on a failed write the handler alerts and
leaves the local list untouched. -/

def handleSaveStock (ok : Bool) (productId : String) (editStock : Int)
    (products : List InvProduct) : List InvProduct :=
  if ok then
    products.map (fun p => if p.id = productId then { p with stock := editStock } else p)
  else products

/-! ## Listing sort order (Categories.tsx)

Two comparators are embedded.  `categoryCompare` is the category snapshot
comparator at lines 67-79: serial numbers compare ascending with null
treated as Infinity (so null goes last), and ties, including the both-null
case, fall back to descending `createdAt` (`toMillis` with missing values
read as 0).  `productCompare` is the Inventory product comparator at lines
543-549: nulls go last, two nulls compare equal (the comparator returns 0,
so a stable sort keeps their fetched relative order), and two non-null
serials compare ascending.  The JavaScript comparators return a number and
only its sign matters to the sort; the mixed finite/Infinity subtractions
are embedded as -1 and 1.  JavaScript `Array.prototype.sort` is stable and
sorts by the comparator; it is embedded as insertion sort by the
comparator's non-strict order. -/

structure ListingEntry where
  id : Nat
  serialNo : Option Int
  createdAtMillis : Option Int
deriving DecidableEq

def entryMillis (e : ListingEntry) : Int :=
  e.createdAtMillis.getD 0

def categoryCompare (a b : ListingEntry) : Int :=
  match a.serialNo, b.serialNo with
  | some x, some y => if x ≠ y then x - y else entryMillis b - entryMillis a
  | some _, none => -1
  | none, some _ => 1
  | none, none => entryMillis b - entryMillis a

def productCompare (a b : ListingEntry) : Int :=
  match a.serialNo, b.serialNo with
  | none, none => 0
  | none, some _ => 1
  | some _, none => -1
  | some x, some y => x - y

def catLe (a b : ListingEntry) : Prop := categoryCompare a b ≤ 0

def prodLe (a b : ListingEntry) : Prop := productCompare a b ≤ 0

instance catLe.instDecidableRel : DecidableRel catLe :=
  fun a b => inferInstanceAs (Decidable (categoryCompare a b ≤ 0))

instance prodLe.instDecidableRel : DecidableRel prodLe :=
  fun a b => inferInstanceAs (Decidable (productCompare a b ≤ 0))

theorem catLe_total (a b : ListingEntry) : catLe a b ∨ catLe b a := by
  unfold catLe categoryCompare
  cases ha : a.serialNo <;> cases hb : b.serialNo <;> simp only [] <;>
    first
    | omega
    | (split_ifs <;> omega)

theorem catLe_trans {a b c : ListingEntry} (hab : catLe a b) (hbc : catLe b c) :
    catLe a c := by
  unfold catLe categoryCompare at hab hbc ⊢
  cases ha : a.serialNo <;> cases hb : b.serialNo <;> cases hc : c.serialNo <;>
    simp only [ha, hb, hc] at hab hbc ⊢ <;>
    first
    | omega
    | (split_ifs at * <;> omega)

instance catLe.instIsTotal : IsTotal ListingEntry catLe := ⟨catLe_total⟩

instance catLe.instIsTrans : IsTrans ListingEntry catLe := ⟨fun _ _ _ => catLe_trans⟩

theorem prodLe_total (a b : ListingEntry) : prodLe a b ∨ prodLe b a := by
  unfold prodLe productCompare
  cases ha : a.serialNo <;> cases hb : b.serialNo <;> simp only [] <;> omega

theorem prodLe_trans {a b c : ListingEntry} (hab : prodLe a b) (hbc : prodLe b c) :
    prodLe a c := by
  unfold prodLe productCompare at hab hbc ⊢
  cases ha : a.serialNo <;> cases hb : b.serialNo <;> cases hc : c.serialNo <;>
    simp only [ha, hb, hc] at hab hbc ⊢ <;> omega

instance prodLe.instIsTotal : IsTotal ListingEntry prodLe := ⟨prodLe_total⟩

instance prodLe.instIsTrans : IsTrans ListingEntry prodLe := ⟨fun _ _ _ => prodLe_trans⟩

def sortCategories (l : List ListingEntry) : List ListingEntry :=
  List.insertionSort catLe l

def sortProducts (l : List ListingEntry) : List ListingEntry :=
  List.insertionSort prodLe l

/-- The ordering the specification claims for a displayed pair (x before y):
non-null serials first in ascending order, null-serial entries after, in
descending creation time.  This is the claim's wording, for comparison with
the embedded comparators. -/
def specOrdered (x y : ListingEntry) : Prop :=
  match x.serialNo, y.serialNo with
  | some sx, some sy => sx ≤ sy
  | some _, none => True
  | none, some _ => False
  | none, none => entryMillis y ≤ entryMillis x

/-- The weaker ordering the product comparator actually guarantees: serials
first ascending, nulls after, with no constraint between two nulls. -/
def serialFirstOrdered (x y : ListingEntry) : Prop :=
  match x.serialNo, y.serialNo with
  | some sx, some sy => sx ≤ sy
  | some _, none => True
  | none, some _ => False
  | none, none => True

instance specOrdered.instDecidableRel : DecidableRel specOrdered := by
  intro x y
  unfold specOrdered
  cases x.serialNo <;> cases y.serialNo <;> exact inferInstance

instance serialFirstOrdered.instDecidableRel : DecidableRel serialFirstOrdered := by
  intro x y
  unfold serialFirstOrdered
  cases x.serialNo <;> cases y.serialNo <;> exact inferInstance

theorem catLe_imp_specOrdered {x y : ListingEntry} (h : catLe x y) : specOrdered x y := by
  unfold catLe categoryCompare at h
  unfold specOrdered
  cases hx : x.serialNo <;> cases hy : y.serialNo <;> simp only [hx, hy] at h ⊢ <;>
    first
    | trivial
    | omega
    | (split_ifs at * <;> omega)

theorem prodLe_imp_serialFirstOrdered {x y : ListingEntry} (h : prodLe x y) :
    serialFirstOrdered x y := by
  unfold prodLe productCompare at h
  unfold serialFirstOrdered
  cases hx : x.serialNo <;> cases hy : y.serialNo <;> simp only [hx, hy] at h ⊢ <;> omega

/-! ## Helper lemmas -/

theorem foldl_add_map_sum {α : Type} (f : α → ℚ) (l : List α) (a : ℚ) :
    l.foldl (fun s x => s + f x) a = a + (l.map f).sum := by
  induction l generalizing a with
  | nil => simp
  | cons x xs ih => simp [ih, add_assoc]

theorem jsTrim_eq_nil_iff (s : List Char) :
    jsTrim s = [] ↔ ∀ c ∈ s, isJsWhitespace c := by
  unfold jsTrim
  rw [List.reverse_eq_nil_iff, List.dropWhile_eq_nil_iff]
  simp only [List.mem_reverse]
  constructor
  · intro h c hc
    have hsplit : c ∈ s.takeWhile isJsWhitespace ++ s.dropWhile isJsWhitespace := by
      rw [List.takeWhile_append_dropWhile]; exact hc
    rcases List.mem_append.mp hsplit with h1 | h2
    · exact List.mem_takeWhile_imp h1
    · exact h c h2
  · intro h c hc
    exact h c (List.dropWhile_subset isJsWhitespace hc)

/-! ## Claim theorems -/

/-- C3 counterexample: the dashboard low-stock counter does not equal the
number of products with `0 < stock ≤ 10`.  A single product with stock 0 is
counted by the dashboard (it satisfies `stock < 10`) but not by the claimed
predicate, and a single product with stock exactly 10 is not counted by the
dashboard although the claimed predicate holds for it. -/
theorem dashboard_low_stock_counterexample :
    dashboardLowStockCount [⟨some 0⟩] = 1
    ∧ (([(⟨some 0⟩ : DashProduct)].filter
        (fun p => decide (0 < p.stock.getD 0 ∧ p.stock.getD 0 ≤ 10))).length) = 0
    ∧ dashboardLowStockCount [⟨some 10⟩] = 0
    ∧ (([(⟨some 10⟩ : DashProduct)].filter
        (fun p => decide (0 < p.stock.getD 0 ∧ p.stock.getD 0 ≤ 10))).length) = 1 := by
  decide

/-- C3 amended: stock classification uses the fixed thresholds (0 is out of
stock, 1 to 10 is low stock, above 10 is in stock, so 0, 10, 11 classify as
out-of-stock, low-stock, in-stock), and the Inventory view's low-stock count
equals the number of products with `0 < stock ≤ 10`; the dashboard's
low-stock counter instead counts products with `stock < 10`, i.e. the
out-of-stock products together with the low-stock products other than those
with stock exactly 10. -/
theorem stock_thresholds_amended :
    (∀ s : Int,
      (s = 0 → getStockStatus s = .outOfStock)
      ∧ (1 ≤ s ∧ s ≤ 10 → getStockStatus s = .lowStock)
      ∧ (10 < s → getStockStatus s = .inStock))
    ∧ getStockStatus 0 = .outOfStock
    ∧ getStockStatus 10 = .lowStock
    ∧ getStockStatus 11 = .inStock
    ∧ (∀ ps : List InvProduct,
        lowStockCount ps = (ps.filter (fun p => decide (0 < p.stock ∧ p.stock ≤ 10))).length)
    ∧ (∀ ps : List DashProduct,
        dashboardLowStockCount ps =
          (ps.filter (fun p =>
            decide (getStockStatus (p.stock.getD 0) = .outOfStock
              ∨ (getStockStatus (p.stock.getD 0) = .lowStock
                  ∧ p.stock.getD 0 ≠ 10)))).length) := by
  refine ⟨fun s => ⟨fun h => ?_, fun h => ?_, fun h => ?_⟩, by decide, by decide, by decide,
    fun ps => ?_, fun ps => ?_⟩
  · subst h; decide
  · rw [getStockStatus, if_neg (by omega), if_pos (by omega)]
  · rw [getStockStatus, if_neg (by omega), if_neg (by omega)]
  · rw [lowStockCount]
    congr 1
    apply List.filter_congr
    intro p _
    rw [← Bool.decide_and]
  · rw [dashboardLowStockCount]
    congr 1
    apply List.filter_congr
    intro p _
    rw [decide_eq_decide, getStockStatus]
    split_ifs <;> simp_all <;> omega

/-- C3 witness: the classifier applied at the boundary values through the
amended theorem. -/
theorem stock_thresholds_amended_witness :
    getStockStatus 5 = .lowStock ∧ getStockStatus 42 = .inStock :=
  ⟨(stock_thresholds_amended.1 5).2.1 (by decide),
   (stock_thresholds_amended.1 42).2.2 (by decide)⟩

/-- C4: both dashboard profit metrics are revenue minus an assumed cost
that is a hard-coded fraction of the subtotal: the overall profit total
subtracts `0.8 * subtotal` per order, the monthly profit series subtracts
`0.6 * subtotal` per order of the month bucket. -/
theorem dashboard_profit_fixed_cost_ratios (orders : List DashOrder) :
    totalProfit orders
      = ((orders.map (fun o => finalTotalD o - (8 / 10 : ℚ) * subtotalD o)).sum)
    ∧ monthProfit orders
      = ((orders.map (fun o => finalTotalD o - (6 / 10 : ℚ) * subtotalD o)).sum) := by
  constructor
  · rw [totalProfit, foldl_add_map_sum, zero_add]
    congr 2
    funext o
    ring
  · rw [monthProfit, foldl_add_map_sum, zero_add]
    congr 2
    funext o
    ring

/-- C8: revenue growth is `(current - previous) / previous * 100` whenever
the previous-period revenue is positive, and 0 when it is 0; in particular
previous 0 and current 500 yield growth 0. -/
theorem revenue_growth_spec (prev cur : ℚ) :
    (0 < prev → revenueGrowth prev cur = (cur - prev) / prev * 100)
    ∧ (prev = 0 → revenueGrowth prev cur = 0)
    ∧ revenueGrowth 0 500 = 0 := by
  refine ⟨fun h => ?_, fun h => ?_, ?_⟩
  · rw [revenueGrowth, if_pos h]
  · rw [revenueGrowth, if_neg (by rw [h]; exact lt_irrefl 0)]
  · rw [revenueGrowth, if_neg (lt_irrefl 0)]

/-- C8 witness: growth at previous 250, current 500 and at previous 0,
current 500. -/
theorem revenue_growth_spec_witness :
    revenueGrowth 250 500 = (500 - 250) / 250 * 100 ∧ revenueGrowth 0 500 = 0 :=
  ⟨(revenue_growth_spec 250 500).1 (by norm_num), (revenue_growth_spec 0 500).2.1 rfl⟩

/-- C9: a serial number entered as 0 is persisted as null on both the
create and the update path, any other entered number is persisted unchanged,
and an entry whose serial number is null is ordered after every entry with
a non-null serial number by the category comparator. -/
theorem serial_zero_persisted_as_null (f : CategoryForm) :
    (f.serialNo = some 0 →
        categoryDataSerialNo f = none ∧ categoryUpdateSerialNo f = none)
    ∧ (∀ n : Int, f.serialNo = some n → n ≠ 0 →
        categoryDataSerialNo f = some n ∧ categoryUpdateSerialNo f = some n)
    ∧ (∀ a b : ListingEntry, a.serialNo = none → b.serialNo ≠ none →
        ¬ catLe a b ∧ catLe b a) := by
  refine ⟨fun h => ?_, fun n hn hn0 => ?_, fun a b ha hb => ?_⟩
  · rw [categoryDataSerialNo, if_neg (by simp [h]), categoryUpdateSerialNo,
      if_neg (by simp [h])]
    exact ⟨rfl, rfl⟩
  · rw [categoryDataSerialNo, if_pos (by simp [hn, hn0]), categoryUpdateSerialNo,
      if_pos (by simp [hn, hn0]), hn]
    exact ⟨rfl, rfl⟩
  · rcases hbs : b.serialNo with _ | k
    · exact absurd hbs hb
    · constructor
      · intro hle
        unfold catLe categoryCompare at hle
        rw [ha, hbs] at hle
        simp only [] at hle
        omega
      · unfold catLe categoryCompare
        rw [hbs, ha]
        simp only []
        omega

/-- C9 witness: the coercion at serial 0 and serial 7, and the ordering of
a null-serial entry after a serialized one. -/
theorem serial_zero_persisted_as_null_witness :
    categoryDataSerialNo ⟨"c", "", "", true, some 0⟩ = none
    ∧ categoryDataSerialNo ⟨"c", "", "", true, some 7⟩ = some 7
    ∧ ¬ catLe ⟨0, none, some 5⟩ ⟨1, some 3, some 9⟩ :=
  ⟨((serial_zero_persisted_as_null ⟨"c", "", "", true, some 0⟩).1 rfl).1,
   ((serial_zero_persisted_as_null ⟨"c", "", "", true, some 7⟩).2.1 7 rfl
      (by decide)).1,
   ((serial_zero_persisted_as_null ⟨"c", "", "", true, none⟩).2.2
      ⟨0, none, some 5⟩ ⟨1, some 3, some 9⟩ rfl (by decide)).1⟩

/-- A sample order document used by witnesses. -/
def sampleOrder : OrderRec := ⟨"o1", .pending, none, none⟩

/-- C1: tracking assignment rejects with no write when the entered string
is empty or whitespace-only, and otherwise writes the tracking number,
forces the status to shipped regardless of the prior status, and stamps the
update time, leaving the order's identity unchanged. -/
theorem tracking_assignment_spec (input : List Char) (nowMillis : Int) (o : OrderRec) :
    ((∀ c ∈ input, isJsWhitespace c) → updateTrackingNumber input nowMillis o = none)
    ∧ ((¬ ∀ c ∈ input, isJsWhitespace c) →
        ∃ o2, updateTrackingNumber input nowMillis o = some o2
          ∧ o2.trackingNumber = some input
          ∧ o2.status = .shipped
          ∧ o2.updatedAtMillis = some nowMillis
          ∧ o2.id = o.id) := by
  constructor
  · intro h
    rw [updateTrackingNumber, if_pos ((jsTrim_eq_nil_iff input).mpr h)]
  · intro h
    rw [updateTrackingNumber, if_neg (fun hnil => h ((jsTrim_eq_nil_iff input).mp hnil))]
    exact ⟨_, rfl, rfl, rfl, rfl, rfl⟩

/-- C1 witness: a whitespace-only entry on a pending order is rejected; the
entry "a " on the same order is written with status forced to shipped. -/
theorem tracking_assignment_spec_witness :
    updateTrackingNumber [' ', '\t'] 7 sampleOrder = none
    ∧ ∃ o2, updateTrackingNumber ['a', ' '] 7 sampleOrder = some o2
        ∧ o2.trackingNumber = some ['a', ' ']
        ∧ o2.status = .shipped
        ∧ o2.updatedAtMillis = some 7
        ∧ o2.id = sampleOrder.id :=
  ⟨(tracking_assignment_spec [' ', '\t'] 7 sampleOrder).1 (by decide),
   (tracking_assignment_spec ['a', ' '] 7 sampleOrder).2 (by decide)⟩

/-- C2: with a non-empty selection, bulk delete either leaves the store
exactly as it was, or produces the sub-store holding exactly the orders
whose id was not selected, in their original relative order; no other
outcome is possible. -/
theorem bulk_delete_atomic (ok : Bool) (sel : List String)
    (store : List (String × OrderRec)) (h : sel ≠ []) :
    deleteSelectedOrders ok sel store = store
    ∨ ((deleteSelectedOrders ok sel store).Sublist store
        ∧ ∀ e, e ∈ deleteSelectedOrders ok sel store ↔ e ∈ store ∧ e.1 ∉ sel) := by
  rw [deleteSelectedOrders, if_neg (fun hlen => h (List.length_eq_zero.mp hlen)),
    commitDeleteBatch]
  cases ok with
  | false => left; rfl
  | true =>
    right
    constructor
    · simp only [if_pos]
      exact List.filter_sublist store
    · intro e
      simp [List.mem_filter]

/-- C2 witness: deleting the selection ["a"] from a two-order store removes
exactly the order with id "a". -/
theorem bulk_delete_atomic_witness :
    deleteSelectedOrders true ["a"] [("a", sampleOrder), ("b", sampleOrder)]
      = [("a", sampleOrder), ("b", sampleOrder)]
    ∨ ((deleteSelectedOrders true ["a"] [("a", sampleOrder), ("b", sampleOrder)]).Sublist
          [("a", sampleOrder), ("b", sampleOrder)]
        ∧ ∀ e, e ∈ deleteSelectedOrders true ["a"] [("a", sampleOrder), ("b", sampleOrder)]
            ↔ e ∈ [("a", sampleOrder), ("b", sampleOrder)] ∧ e.1 ∉ ["a"]) :=
  bulk_delete_atomic true ["a"] [("a", sampleOrder), ("b", sampleOrder)] (by decide)

/-- C5: a combo form with fewer than two constituent products is rejected
before any write; with two or more the save proceeds and a combo document
is written. -/
theorem combo_min_two_products (f : ComboForm) :
    (f.products.length < 2 → handleSubmitCombo f = none)
    ∧ (2 ≤ f.products.length → ∃ d, handleSubmitCombo f = some d) := by
  constructor
  · intro h
    rw [handleSubmitCombo, if_pos h]
  · intro h
    rw [handleSubmitCombo, if_neg (by omega)]
    exact ⟨_, rfl⟩

/-- A one-product combo form and a two-product combo form used by
witnesses. -/
def comboFormOne : ComboForm :=
  ⟨"combo", "", "", [⟨"p1", "a", 1, 10⟩], 15, true, false⟩

def comboFormTwo : ComboForm :=
  ⟨"combo", "", "", [⟨"p1", "a", 1, 10⟩, ⟨"p2", "b", 2, 5⟩], 15, true, false⟩

/-- A two-product combo form priced above the sum of its parts (parts sum
to 20, combo price 100). -/
def comboFormOverpriced : ComboForm :=
  ⟨"combo", "", "", [⟨"p1", "a", 1, 10⟩, ⟨"p2", "b", 2, 5⟩], 100, true, false⟩

/-- The combo document the overpriced form saves: original price 20,
savings -80. -/
def comboOverpricedDoc : ComboDoc :=
  ⟨"combo", "", "", [⟨"p1", "a", 1, 10⟩, ⟨"p2", "b", 2, 5⟩], 100, 20, -80, true, false⟩

/-- C5 witness: one selected product is rejected, two succeed. -/
theorem combo_min_two_products_witness :
    handleSubmitCombo comboFormOne = none
    ∧ ∃ d, handleSubmitCombo comboFormTwo = some d :=
  ⟨(combo_min_two_products comboFormOne).1 (by decide),
   (combo_min_two_products comboFormTwo).2 (by decide)⟩

/-- C6: every saved combo document carries an original price recomputed at
save time as the sum of price times quantity over the form's current
constituent products, and savings equal to the original price minus the
combo price; a combo priced above the sum of its parts is not rejected and
is saved with negative savings. -/
theorem combo_pricing_recomputed (f : ComboForm) (d : ComboDoc) :
    (handleSubmitCombo f = some d →
        d.originalPrice = (f.products.map (fun p => p.price * p.quantity)).sum
        ∧ d.savings = d.originalPrice - f.comboPrice)
    ∧ ∃ (f2 : ComboForm) (d2 : ComboDoc),
        handleSubmitCombo f2 = some d2 ∧ d2.savings < 0 := by
  constructor
  · intro h
    rw [handleSubmitCombo] at h
    by_cases hl : f.products.length < 2
    · rw [if_pos hl] at h
      exact Option.noConfusion h
    · rw [if_neg hl] at h
      have hd := (Option.some.inj h).symm
      subst hd
      refine ⟨?_, ?_⟩
      · show calculateOriginalPrice f = _
        rw [calculateOriginalPrice, foldl_add_map_sum, zero_add]
      · show calculateSavings f = calculateOriginalPrice f - f.comboPrice
        rw [calculateSavings]
  · refine ⟨comboFormOverpriced, comboOverpricedDoc, ?_, by norm_num [comboOverpricedDoc]⟩
    norm_num [handleSubmitCombo, comboFormOverpriced, comboOverpricedDoc,
      calculateOriginalPrice, calculateSavings]

/-- C6 witness: the two-product form saves with original price 20 and
savings 5 below the parts total. -/
theorem combo_pricing_recomputed_witness :
    ∀ d, handleSubmitCombo comboFormTwo = some d →
      d.originalPrice = ((comboFormTwo.products.map (fun p => p.price * p.quantity)).sum)
      ∧ d.savings = d.originalPrice - comboFormTwo.comboPrice := by
  intro d h
  exact (combo_pricing_recomputed comboFormTwo d).1 h

/-- C10: a failed stock save leaves the local product list untouched; a
successful one replaces exactly the stock of the products whose id matches
the edited one and preserves every other field of every product, and every
product with a different id entirely. -/
theorem save_stock_frame (ok : Bool) (pid : String) (v : Int) (ps : List InvProduct) :
    (ok = false → handleSaveStock ok pid v ps = ps)
    ∧ (ok = true → List.Forall₂ (fun q p =>
        q.id = p.id ∧ q.name = p.name ∧ q.sku = p.sku ∧ q.categoryName = p.categoryName
        ∧ q.price = p.price ∧ q.salePrice = p.salePrice
        ∧ q.stock = (if p.id = pid then v else p.stock))
        (handleSaveStock ok pid v ps) ps) := by
  constructor
  · intro h
    subst h
    rfl
  · intro h
    subst h
    rw [handleSaveStock, if_pos rfl]
    induction ps with
    | nil => exact List.Forall₂.nil
    | cons p ps ih =>
      rw [List.map_cons]
      refine List.Forall₂.cons ?_ ih
      by_cases hid : p.id = pid <;> simp [hid]

/-- Two sample inventory rows used by the C10 witness. -/
def invRowA : InvProduct := ⟨"p1", "Soap", "SKU1", "Cleaning", 40, some 35, 3⟩

def invRowB : InvProduct := ⟨"p2", "Mop", "SKU2", "Cleaning", 90, none, 12⟩

/-- C10 witness: saving stock 9 for id "p1" over a two-row list, and a
failed save over the same list. -/
theorem save_stock_frame_witness :
    handleSaveStock false "p1" 9 [invRowA, invRowB] = [invRowA, invRowB]
    ∧ List.Forall₂ (fun q p =>
        q.id = p.id ∧ q.name = p.name ∧ q.sku = p.sku ∧ q.categoryName = p.categoryName
        ∧ q.price = p.price ∧ q.salePrice = p.salePrice
        ∧ q.stock = (if p.id = "p1" then 9 else p.stock))
        (handleSaveStock true "p1" 9 [invRowA, invRowB]) [invRowA, invRowB] :=
  ⟨(save_stock_frame false "p1" 9 [invRowA, invRowB]).1 rfl,
   (save_stock_frame true "p1" 9 [invRowA, invRowB]).2 rfl⟩

/-- C7 counterexample: the Inventory product sort does not order null-serial
entries by descending creation time.  Two null-serial products fetched in
ascending creation order (10 then 20) are left in that order by the sort,
so the displayed pair violates the claimed descending-creation ordering. -/
theorem product_null_serial_order_counterexample :
    sortProducts [⟨0, none, some 10⟩, ⟨1, none, some 20⟩]
      = [⟨0, none, some 10⟩, ⟨1, none, some 20⟩]
    ∧ ¬ (sortProducts [⟨0, none, some 10⟩, ⟨1, none, some 20⟩]).Pairwise specOrdered := by
  constructor
  · decide
  · decide

/-- C7 amended: the category listing places entries with a non-null serial
number first in ascending serial order followed by null-serial entries in
descending creation order (the claim as stated); the product listing places
non-null serials first in ascending order with null-serial entries after
them but leaves null-serial entries in their fetched relative order rather
than sorting them by creation time.  The example with serials [3, null, 1]
orders as [serial 1, serial 3, null] under both listings. -/
theorem listing_sort_amended :
    (∀ l, (sortCategories l).Pairwise specOrdered)
    ∧ (∀ l, (sortProducts l).Pairwise serialFirstOrdered)
    ∧ sortCategories [⟨1, some 3, some 100⟩, ⟨2, none, some 200⟩, ⟨3, some 1, some 300⟩]
        = [⟨3, some 1, some 300⟩, ⟨1, some 3, some 100⟩, ⟨2, none, some 200⟩]
    ∧ sortProducts [⟨1, some 3, some 100⟩, ⟨2, none, some 200⟩, ⟨3, some 1, some 300⟩]
        = [⟨3, some 1, some 300⟩, ⟨1, some 3, some 100⟩, ⟨2, none, some 200⟩]
    ∧ sortProducts [⟨0, none, some 10⟩, ⟨1, none, some 20⟩]
        = [⟨0, none, some 10⟩, ⟨1, none, some 20⟩] := by
  refine ⟨fun l => ?_, fun l => ?_, by decide, by decide, by decide⟩
  · exact List.Pairwise.imp (fun h => catLe_imp_specOrdered h)
      (List.sorted_insertionSort catLe l)
  · exact List.Pairwise.imp (fun h => prodLe_imp_serialFirstOrdered h)
      (List.sorted_insertionSort prodLe l)

end SmartCleaners
